import Mathlib

/-!
Shallow embedding of the highway-traffic-analysis repository
(timwei0801/highway-traffic-analysis), covering:

* `src/src/data_load.py` — `TaiwanETagDataConverter`: reference-table
  index construction, per-pair flow aggregation, and the exact/fuzzy
  identifier mapping of `create_train_data`;
* `src/dataSql.py` — `HighwayDataImporter`: the VD and ETag XML parsers
  (time-bucket derivation) and the bulk-insert operations;
* `src/highway_data/etag.py` — `extract_etag_data`: the direction split
  of ETag pair elements.

Python dictionaries are modelled as association lists with in-place
update (`dinsert`), which preserves both last-write-wins lookup and
first-insertion iteration order.  Python exceptions are modelled with
`Except Unit` or collapsed to the value the enclosing handler returns,
as noted at each definition.
-/

namespace Spec2Proof

/-- Numeric value of a list of decimal digit characters. -/
def digitsVal (l : List Char) : Nat :=
  l.foldl (fun a c => a * 10 + (c.toNat - 48)) 0

/-- Model of Python `int(s)` on sign-plus-digits strings; returns `none`
where the source raises `ValueError`.  (Python additionally strips
whitespace and accepts underscore separators; the feeds' numeric fields
are plain digit strings, so those forms are not modelled.) -/
def pyInt? (s : String) : Option Int :=
  match s.data with
  | [] => none
  | '-' :: rest =>
    if rest ≠ [] ∧ rest.all Char.isDigit then some (-(digitsVal rest : Int)) else none
  | '+' :: rest =>
    if rest ≠ [] ∧ rest.all Char.isDigit then some ((digitsVal rest : Int)) else none
  | l => if l.all Char.isDigit then some ((digitsVal l : Int)) else none

/-- Split a character list at every occurrence of the separator
(Python's `str.split(sep)` for a one-character separator). -/
def splitOnChar (c : Char) : List Char → List (List Char)
  | [] => [[]]
  | x :: xs =>
    match splitOnChar c xs with
    | [] => [[]]
    | h :: t => if x = c then [] :: h :: t else (x :: h) :: t

/-- Python `s.split(sep)` for a one-character separator, on strings. -/
def pySplit (c : Char) (s : String) : List String :=
  (splitOnChar c s.data).map String.mk

/-- Python `str.strip()`: remove leading and trailing whitespace. -/
def pyStrip (s : String) : String :=
  String.mk (((s.data.dropWhile Char.isWhitespace).reverse.dropWhile Char.isWhitespace).reverse)

/-- Model of Python `float(s)` on plain decimal literals, as an exact
rational; returns `none` where the source raises `ValueError`.
(Scientific notation, infinities and NaN do not occur in the feeds and
are not modelled.) -/
def pyFloat? (s : String) : Option Rat :=
  let core : List Char → Option Rat := fun t =>
    match splitOnChar '.' t with
    | [a] => if a ≠ [] ∧ a.all Char.isDigit then some ((digitsVal a : Rat)) else none
    | [a, b] =>
      if (a ≠ [] ∨ b ≠ []) ∧ a.all Char.isDigit ∧ b.all Char.isDigit then
        some ((digitsVal a : Rat) + (digitsVal b : Rat) / ((10 : Rat) ^ b.length))
      else none
    | _ => none
  match s.data with
  | '-' :: rest => (core rest).map (fun r => -r)
  | '+' :: rest => core rest
  | _ => core s.data

/-- Prefix test on character lists (structural, so that concrete
instances evaluate in the kernel). -/
def listIsPfx : List Char → List Char → Bool
  | [], _ => true
  | _ :: _, [] => false
  | a :: as, b :: bs => if a = b then listIsPfx as bs else false

/-- Substring test on character lists. -/
def listInfix (needle : List Char) : List Char → Bool
  | [] => needle.isEmpty
  | c :: t => listIsPfx needle (c :: t) || listInfix needle t

/-- Python `needle in haystack` on strings (substring test). -/
def containsSub (needle hay : String) : Bool :=
  listInfix needle.data hay.data

/-- Python `s.startswith(pfx)` on strings. -/
def pyStartsWith (pfx s : String) : Bool :=
  listIsPfx pfx.data s.data

end Spec2Proof

namespace DataLoad

/-- One `Flow` sub-element of an `ETagPairLive` element, after the
`int(...)` conversions of `parse_xml_files` (data_load.py lines
154-156). -/
structure Flow where
  vehicle_count : Int
  travel_time : Int
  speed : Int
deriving DecidableEq, Repr

/-- One iteration of the flow loop of `parse_xml_files` (data_load.py
lines 153-161): a flow is accumulated only when both its vehicle count
and its travel time are positive.  The accumulator is
(total_vehicle_count, weighted_travel_time, weighted_speed). -/
def aggStep (acc : Int × Int × Int) (f : Flow) : Int × Int × Int :=
  if 0 < f.vehicle_count ∧ 0 < f.travel_time then
    (acc.1 + f.vehicle_count,
     acc.2.1 + f.travel_time * f.vehicle_count,
     acc.2.2 + f.speed * f.vehicle_count)
  else acc

/-- The running sums over the flows of one pair element (data_load.py
lines 149-161). -/
def aggTotals (flows : List Flow) : Int × Int × Int :=
  flows.foldl aggStep (0, 0, 0)

/-- Aggregation of one pair element's flows (data_load.py lines
148-169): the total count together with the count-weighted mean travel
time and speed, both 0 when the total is not positive. -/
def aggregateFlows (flows : List Flow) : Int × Rat × Rat :=
  let t := aggTotals flows
  if 0 < t.1 then (t.1, (t.2.1 : Rat) / (t.1 : Rat), (t.2.2 : Rat) / (t.1 : Rat))
  else (t.1, 0, 0)

/-- One row of the ETag reference CSV as used by `_create_etag_dict`
(data_load.py lines 43-53): the raw text of the identifier column
together with the geographic columns carried into `base_info`. -/
structure EtagRow where
  id_field : String
  lat : Rat
  lon : Rat
  direction : String
  mileage : Rat
deriving DecidableEq, Repr

/-- The `base_info` dictionary built per reference row (data_load.py
lines 48-54). -/
structure StationInfo where
  index : Nat
  lat : Rat
  lon : Rat
  direction : String
  mileage : Rat
deriving DecidableEq, Repr

/-- `base_info` for row number `idx` (data_load.py lines 48-54). -/
def mkInfo (idx : Nat) (row : EtagRow) : StationInfo :=
  ⟨idx, row.lat, row.lon, row.direction, row.mileage⟩

/-- The Python dict is modelled as an association list with unique keys
kept in first-insertion order; `dinsert` updates in place or appends,
exactly as a Python dict assignment does. -/
def dinsert (d : List (String × StationInfo)) (k : String) (v : StationInfo) :
    List (String × StationInfo) :=
  match d with
  | [] => [(k, v)]
  | (k0, v0) :: rest => if k0 = k then (k, v) :: rest else (k0, v0) :: dinsert rest k v

/-- Dict lookup (first — and only — entry with the key). -/
def dget (d : List (String × StationInfo)) (k : String) : Option StationInfo :=
  match d with
  | [] => none
  | (k0, v) :: rest => if k0 = k then some v else dget rest k

/-- Decomposition of a reference identifier into road label, mileage
digits and direction character, mirroring data_load.py lines 60-73:
split on the dash into exactly two parts, require an N or S somewhere in
the suffix, take the suffix's last character as the direction, drop the
decimal points from the rest (Python's `.replace('.', '')`, modelled as
a character filter), and right-pad the digits with zeros to length 4
(`ljust(4, '0')`). -/
def rowParts (row : EtagRow) : Option (String × List Char × Char) :=
  match Spec2Proof.pySplit '-' (Spec2Proof.pyStrip row.id_field) with
  | [pfx, sfx] =>
    if Spec2Proof.containsSub "N" sfx || Spec2Proof.containsSub "S" sfx then
      match sfx.data.getLast? with
      | some dchar =>
        let n0 := sfx.data.dropLast.filter (fun c => c ≠ '.')
        let number := if n0.length < 4 then n0 ++ List.replicate (4 - n0.length) '0' else n0
        some (pfx, number, dchar)
      | none => none
    else none
  | _ => none

/-- The keys written into `etag_dict` for one reference row, in write
order (data_load.py lines 56-88): the trimmed original identifier, then
— when the identifier decomposes — the compact 4-digit form, the 3-digit
form with the road label's first character dropped, and, when the road
label starts with `0`, the four road-label variants. -/
def genKeys (row : EtagRow) : List String :=
  Spec2Proof.pyStrip row.id_field ::
    match rowParts row with
    | none => []
    | some (pfx, number, dchar) =>
      (pfx ++ String.mk (number.take 4) ++ String.mk [dchar]) ::
      (String.mk (pfx.data.drop 1) ++ String.mk (number.take 3) ++ String.mk [dchar]) ::
      (if Spec2Proof.pyStartsWith "0" pfx then
        ["01F", "03F", "1F", "3F"].map
          (fun np => np ++ String.mk (number.take 4) ++ String.mk [dchar])
      else [])

/-- The compact feed-style encoding generated for a row (the
`xml_format` of data_load.py line 76). -/
def compactForm (row : EtagRow) : Option String :=
  (rowParts row).map (fun p => p.1 ++ String.mk (p.2.1.take 4) ++ String.mk [p.2.2])

/-- All writes of one row into the dict (the loop body of
`_create_etag_dict`, data_load.py lines 43-88). -/
def insertRowKeys (d : List (String × StationInfo)) (idx : Nat) (row : EtagRow) :
    List (String × StationInfo) :=
  (genKeys row).foldl (fun acc k => dinsert acc k (mkInfo idx row)) d

/-- The row loop of `_create_etag_dict`, carrying the running row index
(`iterrows`). -/
def buildGo (idx : Nat) : List EtagRow → List (String × StationInfo) →
    List (String × StationInfo)
  | [], d => d
  | r :: rs, d => buildGo (idx + 1) rs (insertRowKeys d idx r)

/-- `_create_etag_dict` (data_load.py lines 32-97): the identifier
index, mapping every generated encoding to its row's `base_info`. -/
def createEtagDict (rows : List EtagRow) : List (String × StationInfo) :=
  buildGo 0 rows []

/-- The exact lookup of `create_train_data` line 212:
`self.etag_dict.get(x, \x7b\x7d).get('index', -1)`. -/
def exactIndex (d : List (String × StationInfo)) (x : String) : Int :=
  match dget d x with
  | some info => (info.index : Int)
  | none => -1

/-- Python `''.join(filter(str.isalnum, s))` (create_train_data lines
234 and 239). -/
def alnumOnly (s : String) : String :=
  String.mk (s.data.filter Char.isAlphanum)

/-- The fallback index of `create_train_data` lines 231-235: every
existing dict entry re-keyed by its alphanumeric-only reduction,
iterating the dict in insertion order (later entries overwrite). -/
def simplifiedEtagDict (d : List (String × StationInfo)) : List (String × StationInfo) :=
  d.foldl (fun acc e => dinsert acc (alnumOnly e.1) e.2) []

/-- The fuzzy lookup of `create_train_data` lines 238-240: the query is
reduced to its alphanumeric characters before the lookup. -/
def fuzzyIndex (sd : List (String × StationInfo)) (x : String) : Int :=
  match dget sd (alnumOnly x) with
  | some info => (info.index : Int)
  | none => -1

/-- The station-resolution stage of `create_train_data` (data_load.py
lines 210-243): map every identifier through the exact index and keep
the resolved ones; only when that leaves nothing is the whole batch
re-mapped through the alphanumeric-reduction index. -/
def resolveBatch (d : List (String × StationInfo)) (ids : List String) :
    List (String × Int) :=
  let mapped := ids.map (fun x => (x, exactIndex d x))
  let valid := mapped.filter (fun p => p.2 ≠ -1)
  if valid.isEmpty then
    let sd := simplifiedEtagDict d
    (ids.map (fun x => (x, fuzzyIndex sd x))).filter (fun p => p.2 ≠ -1)
  else valid

/-- Calendar timestamp as parsed by `datetime.fromisoformat` in
`parse_xml_files` (data_load.py line 145). -/
structure DateTimeM where
  year : Nat
  month : Nat
  day : Nat
  hour : Nat
  minute : Nat
  second : Nat
deriving DecidableEq, Repr

/-- Model of `datetime.fromisoformat` on the feed's
`YYYY-MM-DDTHH:MM:SS` layout (the source strips the `+08:00` suffix
first); `none` where the source raises `ValueError`.  Other ISO-8601
forms do not occur in the feeds and are not modelled. -/
def pyFromIso? (s : String) : Option DateTimeM :=
  match s.data with
  | [y1, y2, y3, y4, '-', m1, m2, '-', d1, d2, 'T', h1, h2, ':', i1, i2, ':', s1, s2] =>
    if [y1, y2, y3, y4, m1, m2, d1, d2, h1, h2, i1, i2, s1, s2].all Char.isDigit then
      let dt : DateTimeM :=
        ⟨Spec2Proof.digitsVal [y1, y2, y3, y4], Spec2Proof.digitsVal [m1, m2],
         Spec2Proof.digitsVal [d1, d2], Spec2Proof.digitsVal [h1, h2],
         Spec2Proof.digitsVal [i1, i2], Spec2Proof.digitsVal [s1, s2]⟩
      if 1 ≤ dt.month ∧ dt.month ≤ 12 ∧ 1 ≤ dt.day ∧ dt.day ≤ 31 ∧
          dt.hour ≤ 23 ∧ dt.minute ≤ 59 ∧ dt.second ≤ 59 then
        some dt
      else none
    else none
  | _ => none

/-- Remove every occurrence of `pat` from the list; the fuel argument
(instantiated with the list length) keeps the recursion structural. -/
def removeSubAllF (pat : List Char) : Nat → List Char → List Char
  | _, [] => []
  | 0, l => l
  | fuel + 1, c :: t =>
    if pat ≠ [] ∧ Spec2Proof.listIsPfx pat (c :: t) then
      removeSubAllF pat fuel ((c :: t).drop pat.length)
    else c :: removeSubAllF pat fuel t

/-- Python `s.replace(pat, '')`: drop every occurrence of `pat`
(data_load.py line 145 uses it to strip the `+08:00` zone suffix). -/
def pyRemoveAll (pat s : String) : String :=
  String.mk (removeSubAllF pat.data s.data.length s.data)

/-- Zero-padded decimal rendering, for `strftime('%Y/%m/%d')`. -/
def padZeros (w n : Nat) : List Char :=
  let ds := Nat.toDigits 10 n
  List.replicate (w - ds.length) '0' ++ ds

/-- `start_datetime.strftime('%Y/%m/%d')` (data_load.py line 175). -/
def fmtDate (dt : DateTimeM) : String :=
  String.mk (padZeros 4 dt.year) ++ "/" ++ String.mk (padZeros 2 dt.month) ++ "/" ++
    String.mk (padZeros 2 dt.day)

/-- One output row of `parse_xml_files` (data_load.py lines 172-182). -/
structure DLRow where
  etag_id : String
  dt : DateTimeM
  date : String
  day : Nat
  hour : Nat
  minute : Nat
  flow : Int
  speed : Rat
  travel_time : Rat
deriving DecidableEq, Repr

/-- One `Flow` sub-element as it appears in the document: the texts of
its three numeric children.  `none` stands for a missing child element
or a null text; in either case the source's `int(...)` raises and the
exception escapes to the per-file handler. -/
structure DLFlowElem where
  vehicle_count : Option String
  travel_time : Option String
  speed : Option String
deriving DecidableEq, Repr

/-- The `int(...)` conversions of one flow (data_load.py lines
154-156); `none` means an exception aborted the file. -/
def parseDLFlow (f : DLFlowElem) : Option Flow :=
  match f.vehicle_count, f.travel_time, f.speed with
  | some vc, some tt, some sp =>
    match Spec2Proof.pyInt? vc, Spec2Proof.pyInt? tt, Spec2Proof.pyInt? sp with
    | some a, some b, some c => some ⟨a, b, c⟩
    | _, _, _ => none
  | _, _, _ => none

/-- All flows of one pair element; an `int(...)` failure part-way
through the source's loop emits no row for the pair, so converting the
whole list first is observationally the same. -/
def parseDLFlows : List DLFlowElem → Option (List Flow)
  | [] => some []
  | f :: rest =>
    match parseDLFlow f, parseDLFlows rest with
    | some v, some vs => some (v :: vs)
    | _, _ => none

/-- One `ETagPairLive` element of a data_load document.  For the
two-level options: the outer `none` means the child element is absent
(the immediate `.text` access raises and the exception escapes to the
per-file handler); the inner `none` means the element is present with a
null text. -/
structure DLPairElem where
  pair_id : Option (Option String)
  start_time : Option (Option String)
  flows : Option (List DLFlowElem)
deriving DecidableEq, Repr

/-- Outcome of one iteration of the pair loop of `parse_xml_files`:
an exception reaching the per-file handler, an inner `continue`, or the
two emitted rows. -/
inductive PairStep where
  | abort : PairStep
  | skip : PairStep
  | rows (r1 r2 : DLRow) : PairStep
deriving DecidableEq, Repr

/-- One iteration of the pair loop (data_load.py lines 133-188): fetch
the pair id and start time, split the pair id on the dash (a failed
two-way unpacking is caught by the bare `except` and skips the pair),
parse the start time, aggregate the flows, and emit one row for the
start station plus a copy for the end station differing only in
`etag_id`. -/
def processPair (p : DLPairElem) : PairStep :=
  match p.pair_id with
  | none => .abort
  | some pidOpt =>
    match p.start_time with
    | none => .abort
    | some stOpt =>
      match pidOpt with
      | none => .skip
      | some pid =>
        match Spec2Proof.pySplit '-' pid with
        | [se, ee] =>
          match stOpt with
          | none => .abort
          | some st =>
            match pyFromIso? (pyRemoveAll "+08:00" st) with
            | none => .abort
            | some dt =>
              match p.flows with
              | none => .abort
              | some fl =>
                match parseDLFlows fl with
                | none => .abort
                | some flowVals =>
                  let agg := aggregateFlows flowVals
                  let r1 : DLRow :=
                    ⟨se, dt, fmtDate dt, dt.day, dt.hour, dt.minute, agg.1, agg.2.2, agg.2.1⟩
                  .rows r1 { r1 with etag_id := ee }
        | _ => .skip

/-- The pair loop over one document (data_load.py lines 133-188): a
skip moves to the next pair, an exception abandons the rest of the file
(rows appended for earlier pairs are kept by the caller). -/
def processPairs : List DLPairElem → List DLRow
  | [] => []
  | p :: rest =>
    match processPair p with
    | .abort => []
    | .skip => processPairs rest
    | .rows r1 r2 => r1 :: r2 :: processPairs rest

/-- Number of pair elements of the document that parse successfully
(i.e. reach the row-emitting end of the loop body). -/
def parsedPairCount : List DLPairElem → Nat
  | [] => 0
  | p :: rest =>
    match processPair p with
    | .abort => 0
    | .skip => parsedPairCount rest
    | .rows _ _ => 1 + parsedPairCount rest

end DataLoad

namespace DataSql

/-- Time-bucket derivation of `parse_vd_xml` (dataSql.py lines
110-122): when the file name carries the `VDLive_` marker and is long
enough, the four characters after the first underscore give HHMM;
otherwise a sufficiently long update-time string gives them; otherwise
the document yields no records.  `none` also covers an `int(...)`
failure, which the enclosing handler turns into an empty result. -/
def deriveVDTime (filename : String) (update_time : Option String) : Option (Int × Int) :=
  if Spec2Proof.containsSub "VDLive_" filename ∧ 12 ≤ filename.length then
    match (Spec2Proof.pySplit '_' filename).get? 1 with
    | some part =>
      let tp := part.data.take 4
      match Spec2Proof.pyInt? (String.mk (tp.take 2)), Spec2Proof.pyInt? (String.mk (tp.drop 2)) with
      | some h, some m => some (h, m)
      | _, _ => none
    | none => none
  else
    match update_time with
    | some ut =>
      if ut ≠ "" ∧ 16 ≤ ut.length then
        match Spec2Proof.pyInt? (String.mk ((ut.data.drop 11).take 2)),
            Spec2Proof.pyInt? (String.mk ((ut.data.drop 14).take 2)) with
        | some h, some m => some (h, m)
        | _, _ => none
      else none
    | none => none

/-- Time-bucket derivation of `parse_etag_xml` (dataSql.py lines
188-200), identical to the VD one up to the marker and length bound. -/
def deriveETagTime (filename : String) (update_time : Option String) : Option (Int × Int) :=
  if Spec2Proof.containsSub "ETagPairLive_" filename ∧ 17 ≤ filename.length then
    match (Spec2Proof.pySplit '_' filename).get? 1 with
    | some part =>
      let tp := part.data.take 4
      match Spec2Proof.pyInt? (String.mk (tp.take 2)), Spec2Proof.pyInt? (String.mk (tp.drop 2)) with
      | some h, some m => some (h, m)
      | _, _ => none
    | none => none
  else
    match update_time with
    | some ut =>
      if ut ≠ "" ∧ 16 ≤ ut.length then
        match Spec2Proof.pyInt? (String.mk ((ut.data.drop 11).take 2)),
            Spec2Proof.pyInt? (String.mk ((ut.data.drop 14).take 2)) with
        | some h, some m => some (h, m)
        | _, _ => none
      else none
    | none => none

/-- One `Lane` element of a VD document: the four child texts.  The
outer `none` marks an absent child element, the inner `none` a null
text. -/
structure VDLane where
  lane_id : Option (Option String)
  speed : Option (Option String)
  occupancy : Option (Option String)
  volume : Option (Option String)
deriving DecidableEq, Repr

/-- One `VDLive`/`VD` station element. -/
structure VDElem where
  vd_id : Option (Option String)
  lanes : List VDLane
deriving DecidableEq, Repr

/-- One VD document handed to `parse_vd_xml`.  A missing `UpdateTime`
element and a null text both leave `update_time = None` in the source,
so a single `Option` suffices. -/
structure VDDoc where
  filename : String
  update_time : Option String
  vds : List VDElem
deriving DecidableEq, Repr

/-- One row appended to `data_list` by `parse_vd_xml` (dataSql.py lines
158-168). -/
structure VDRecord where
  update_time : Option String
  vd_id : Option String
  lane_id : Option String
  speed : Rat
  occupancy : Rat
  volume : Int
  date_key : String
  hour_key : Int
  minute_key : Int
deriving DecidableEq, Repr

/-- Python `float(elem.text) if elem.text else 0` (dataSql.py lines
154-155): a null or empty text coerces to 0; `none` means `float`
raised. -/
def coerceFloat (t : Option String) : Option Rat :=
  match t with
  | some s => if s ≠ "" then Spec2Proof.pyFloat? s else some 0
  | none => some 0

/-- Python `int(volume_elem.text) if volume_elem is not None and
volume_elem.text else 0` (dataSql.py line 156). -/
def coerceVolume (v : Option (Option String)) : Option Int :=
  match v with
  | some (some s) => if s ≠ "" then Spec2Proof.pyInt? s else some 0
  | _ => some 0

/-- One lane iteration (dataSql.py lines 144-168): a missing
`LaneID`/`Speed`/`Occupancy` child skips the lane (`some none`); a
numeric-coercion failure is an exception (`none`) that empties the
whole document. -/
def parseLane (lane : VDLane) : Option (Option (Option String × Rat × Rat × Int)) :=
  match lane.lane_id, lane.speed, lane.occupancy with
  | some lid, some spT, some ocT =>
    match coerceFloat spT, coerceFloat ocT, coerceVolume lane.volume with
    | some sp, some oc, some vol => some (some (lid, sp, oc, vol))
    | _, _, _ => none
  | _, _, _ => some none

/-- The lane loop of one VD element. -/
def parseVDLanes (ut : Option String) (vid : Option String) (dk : String) (hk mnk : Int) :
    List VDLane → Option (List VDRecord)
  | [] => some []
  | lane :: rest =>
    match parseLane lane with
    | none => none
    | some none => parseVDLanes ut vid dk hk mnk rest
    | some (some (lid, sp, oc, vol)) =>
      (parseVDLanes ut vid dk hk mnk rest).map
        (fun rs => ⟨ut, vid, lid, sp, oc, vol, dk, hk, mnk⟩ :: rs)

/-- The VD-element loop (dataSql.py lines 131-168): an element without
a `VDID` child is skipped. -/
def parseVDs (ut : Option String) (dk : String) (hk mnk : Int) :
    List VDElem → Option (List VDRecord)
  | [] => some []
  | vd :: rest =>
    match vd.vd_id with
    | none => parseVDs ut dk hk mnk rest
    | some vid =>
      match parseVDLanes ut vid dk hk mnk vd.lanes, parseVDs ut dk hk mnk rest with
      | some a, some b => some (a ++ b)
      | _, _ => none

/-- `parse_vd_xml` (dataSql.py lines 99-176).  The namespace removal
and the `VDLive`-or-`VD` lookup fallback are presentation of the same
element list and are folded into `vds`; any exception is caught by the
enclosing handler, which returns the empty list. -/
def parse_vd_xml (dk : String) (doc : VDDoc) : List VDRecord :=
  match deriveVDTime doc.filename doc.update_time with
  | none => []
  | some (hk, mnk) =>
    match parseVDs doc.update_time dk hk mnk doc.vds with
    | some l => l
    | none => []

/-- One `ETagPairLive` element of a dataSql ETag document. -/
structure SqlPairElem where
  pair_id : Option (Option String)
  travel_time : Option (Option String)
deriving DecidableEq, Repr

/-- One ETag document handed to `parse_etag_xml`. -/
structure ETagDoc where
  filename : String
  update_time : Option String
  pairs : List SqlPairElem
deriving DecidableEq, Repr

/-- One row appended to `data_list` by `parse_etag_xml` (dataSql.py
lines 233-241). -/
structure ETagRecord where
  update_time : Option String
  from_station : String
  to_station : String
  travel_time : Rat
  date_key : String
  hour_key : Int
  minute_key : Int
deriving DecidableEq, Repr

/-- One pair iteration (dataSql.py lines 209-241): a missing id
element, null or dash-free text, or a split into other than two parts
skips the pair; a missing or falsy travel-time text coerces to 0; a
`float` failure is an exception that empties the document. -/
def parseSqlPair (ut : Option String) (dk : String) (hk mnk : Int) (p : SqlPairElem) :
    Option (Option ETagRecord) :=
  match p.pair_id with
  | some (some pid) =>
    if Spec2Proof.containsSub "-" pid then
      match Spec2Proof.pySplit '-' pid with
      | [fromS, toS] =>
        match (match p.travel_time with
               | some (some t) => if t ≠ "" then Spec2Proof.pyFloat? t else some 0
               | _ => some 0) with
        | some tt => some (some ⟨ut, fromS, toS, tt, dk, hk, mnk⟩)
        | none => none
      | _ => some none
    else some none
  | _ => some none

/-- The pair loop of one ETag document. -/
def parseSqlPairs (ut : Option String) (dk : String) (hk mnk : Int) :
    List SqlPairElem → Option (List ETagRecord)
  | [] => some []
  | p :: rest =>
    match parseSqlPair ut dk hk mnk p with
    | none => none
    | some none => parseSqlPairs ut dk hk mnk rest
    | some (some r) => (parseSqlPairs ut dk hk mnk rest).map (fun rs => r :: rs)

/-- `parse_etag_xml` (dataSql.py lines 178-252); any exception is
caught by the enclosing handler, which returns the empty list. -/
def parse_etag_xml (dk : String) (doc : ETagDoc) : List ETagRecord :=
  match deriveETagTime doc.filename doc.update_time with
  | none => []
  | some (hk, mnk) =>
    match parseSqlPairs doc.update_time dk hk mnk doc.pairs with
    | some l => l
    | none => []

/-- `bulk_insert_vd_data` (dataSql.py lines 339-366): an empty batch
returns 0 before any store interaction; otherwise the batch is appended
(pandas `to_sql(..., if_exists='append')`) and its length returned.
The store is modelled as the list of persisted rows; the source's
timestamp conversions and its insert-failure handler concern the live
database connection and are outside the model. -/
def bulk_insert_vd_data (data_list : List VDRecord) (db : List VDRecord) :
    Nat × List VDRecord :=
  if data_list.isEmpty then (0, db)
  else (data_list.length, db ++ data_list)

/-- `bulk_insert_etag_data` (dataSql.py lines 368-395), same shape as
the VD one. -/
def bulk_insert_etag_data (data_list : List ETagRecord) (db : List ETagRecord) :
    Nat × List ETagRecord :=
  if data_list.isEmpty then (0, db)
  else (data_list.length, db ++ data_list)

end DataSql

namespace EtagX

/-- One `ETagPairLive` element of an `extract_etag_data` document
(etag.py).  `pair_id = none` marks a missing `ETagPairID` child (the
element is skipped); `content` stands for the rest of the element,
which `ET.tostring` serializes into the output.  (An id element present
with a null text makes the source raise `TypeError`, aborting the whole
call; such documents produce no output and are not modelled.) -/
structure EPairElem where
  pair_id : Option String
  content : String
deriving DecidableEq, Repr

/-- `re.match(r'01F(\d\x7b4\x7d)([NS])-01F(\d\x7b4\x7d)([NS])', s)`
(etag.py line 29): anchored at the start of the string, trailing
characters unconstrained, `\d` modelled as ASCII digits.  Returns the
two mileages and direction letters. -/
def etagPatternMatch (s : String) : Option (Nat × Char × Nat × Char) :=
  match s.data with
  | '0' :: '1' :: 'F' :: a1 :: a2 :: a3 :: a4 :: c1 :: '-' ::
      '0' :: '1' :: 'F' :: b1 :: b2 :: b3 :: b4 :: c2 :: _ =>
    if [a1, a2, a3, a4, b1, b2, b3, b4].all Char.isDigit ∧
        (c1 = 'N' ∨ c1 = 'S') ∧ (c2 = 'N' ∨ c2 = 'S') then
      some (Spec2Proof.digitsVal [a1, a2, a3, a4], c1,
            Spec2Proof.digitsVal [b1, b2, b3, b4], c2)
    else none
  | _ => none

/-- `extract_etag_data` (etag.py lines 29-57): keep the elements whose
id matches the pattern with both mileages in [447, 1022]; increasing
mileage goes to the first output, decreasing to the second. -/
def extract_etag_data : List EPairElem → List EPairElem × List EPairElem
  | [] => ([], [])
  | e :: rest =>
    let r := extract_etag_data rest
    match e.pair_id with
    | none => r
    | some pid =>
      match etagPatternMatch pid with
      | none => r
      | some (skm, _, ekm, _) =>
        if 447 ≤ skm ∧ skm ≤ 1022 ∧ 447 ≤ ekm ∧ ekm ≤ 1022 then
          if skm < ekm then (e :: r.1, r.2)
          else if ekm < skm then (r.1, e :: r.2)
          else r
        else r

end EtagX

namespace DataLoad

/-- Fixture: a reference row whose native identifier is
`01F-029.3N`. -/
def rowA : EtagRow := ⟨"01F-029.3N", 121, 25, "N", 29⟩

/-- Fixture: a reference row whose native identifier is `03F-029.3N`;
its road-label variants collide with `rowA`'s. -/
def rowB : EtagRow := ⟨"03F-029.3N", 121, 25, "S", 29⟩

/-- Fixture: a pair element with a well-formed id and start time and a
single zero-count flow. -/
def pairFix : DLPairElem :=
  ⟨some (some "01F0447N-01F0509N"), some (some "2025-04-01T08:05:00+08:00"),
   some [⟨some "0", some "300", some "60"⟩]⟩

/-- Fixture: the start-station row emitted for `pairFix`. -/
def rowFix : DLRow :=
  ⟨"01F0447N", ⟨2025, 4, 1, 8, 5, 0⟩, "2025/04/01", 1, 8, 5, 0, 0, 0⟩

end DataLoad

namespace DataSql

/-- Fixture: a VD document whose file name encodes the out-of-range
HHMM token 9999, with one station and one complete lane. -/
def vdDocFix : VDDoc :=
  ⟨"VDLive_9999.xml", some "2025-04-01T10:30:00+08:00",
   [⟨some (some "VD-N1-N-23"),
     [⟨some (some "1"), some (some "50"), some (some "10"), some (some "20")⟩]⟩]⟩

/-- Fixture: a VD document whose file name lacks the marker and whose
update time is too short, with a non-empty body. -/
def docNoTime : VDDoc :=
  ⟨"data.xml", some "short",
   [⟨some (some "VD-N1-N-23"),
     [⟨some (some "1"), some (some "50"), some (some "10"), some (some "20")⟩]⟩]⟩

end DataSql

namespace EtagX

/-- Fixture: a pair element on road 01F with mileages 44.7 and 50.9,
both inside [447, 1022]. -/
def e447 : EPairElem := ⟨some "01F0447N-01F0509N", "flows-payload"⟩

end EtagX

namespace DataLoad

theorem foldl_aggStep_invalid (flows : List Flow)
    (h : ∀ f ∈ flows, ¬(0 < f.vehicle_count ∧ 0 < f.travel_time)) (acc : Int × Int × Int) :
    flows.foldl aggStep acc = acc := by
  induction flows generalizing acc with
  | nil => rfl
  | cons f rest ih =>
    rw [List.foldl_cons, show aggStep acc f = acc by simp [aggStep, h f (by simp)]]
    exact ih (fun g hg => h g (by simp [hg])) acc

theorem foldl_aggStep_valid (flows : List Flow)
    (h : ∀ f ∈ flows, 0 < f.vehicle_count ∧ 0 < f.travel_time) (acc : Int × Int × Int) :
    flows.foldl aggStep acc =
      (acc.1 + (flows.map (fun f => f.vehicle_count)).sum,
       acc.2.1 + (flows.map (fun f => f.travel_time * f.vehicle_count)).sum,
       acc.2.2 + (flows.map (fun f => f.speed * f.vehicle_count)).sum) := by
  induction flows generalizing acc with
  | nil => simp
  | cons f rest ih =>
    rw [List.foldl_cons, show aggStep acc f =
      (acc.1 + f.vehicle_count, acc.2.1 + f.travel_time * f.vehicle_count,
       acc.2.2 + f.speed * f.vehicle_count) by simp [aggStep, h f (by simp)]]
    rw [ih (fun g hg => h g (by simp [hg]))]
    simp [add_assoc]

/-- C1: within one pair element, the aggregated record sums the
vehicle counts and takes count-weighted means of travel time and speed
over the flow sub-elements; on the concrete flows (10, 300, 60) and
(5, 330, 55) this gives total 15, weighted travel time 310 and weighted
speed (10·60 + 5·55)/15 = 175/3. -/
theorem c1_weighted_aggregation (flows : List Flow) (hne : flows ≠ [])
    (hv : ∀ f ∈ flows, 0 < f.vehicle_count ∧ 0 < f.travel_time) :
    aggregateFlows flows =
      ((flows.map (fun f => f.vehicle_count)).sum,
       ((flows.map (fun f => f.travel_time * f.vehicle_count)).sum : Int) /
         (((flows.map (fun f => f.vehicle_count)).sum : Int) : Rat),
       ((flows.map (fun f => f.speed * f.vehicle_count)).sum : Int) /
         (((flows.map (fun f => f.vehicle_count)).sum : Int) : Rat)) ∧
    aggregateFlows [⟨10, 300, 60⟩, ⟨5, 330, 55⟩] = (15, 310, 175 / 3) := by
  constructor
  · have hpos : 0 < (flows.map (fun f => f.vehicle_count)).sum := by
      apply List.sum_pos
      · intro x hx
        obtain ⟨f, hf, rfl⟩ := List.mem_map.mp hx
        exact (hv f hf).1
      · simpa using hne
    unfold aggregateFlows aggTotals
    rw [foldl_aggStep_valid flows hv]
    simp [hpos]
  · norm_num [aggregateFlows, aggTotals, aggStep]

/-- C1 witness: the theorem applied to the concrete two-flow list. -/
theorem c1_witness :
    (∀ f ∈ ([⟨10, 300, 60⟩, ⟨5, 330, 55⟩] : List Flow),
      0 < f.vehicle_count ∧ 0 < f.travel_time) ∧
    aggregateFlows [⟨10, 300, 60⟩, ⟨5, 330, 55⟩] = (15, 310, 175 / 3) :=
  ⟨by decide, (c1_weighted_aggregation [⟨10, 300, 60⟩, ⟨5, 330, 55⟩] (by decide) (by decide)).2⟩

/-- C4: a pair element all of whose flows are excluded (non-positive
count or travel time) aggregates to total 0 with travel time and speed
exactly 0 — a defined value, not a division fault. -/
theorem c4_zero_group (flows : List Flow)
    (h : ∀ f ∈ flows, f.vehicle_count ≤ 0 ∨ f.travel_time ≤ 0) :
    aggregateFlows flows = (0, 0, 0) := by
  have h' : ∀ f ∈ flows, ¬(0 < f.vehicle_count ∧ 0 < f.travel_time) := by
    intro f hf hc
    rcases h f hf with h1 | h1
    · omega
    · omega
  unfold aggregateFlows aggTotals
  rw [foldl_aggStep_invalid flows h']
  norm_num

/-- C4 witness: a single zero-count flow aggregates to (0, 0, 0). -/
theorem c4_witness :
    (∀ f ∈ ([⟨0, 300, 60⟩] : List Flow), f.vehicle_count ≤ 0 ∨ f.travel_time ≤ 0) ∧
    aggregateFlows [⟨0, 300, 60⟩] = (0, 0, 0) :=
  ⟨by decide, c4_zero_group [⟨0, 300, 60⟩] (by decide)⟩

/-- C5: a flow with non-positive vehicle count or non-positive travel
time contributes nothing — inserting it anywhere among a pair's flows
leaves the aggregated total, weighted travel time and weighted speed
unchanged. -/
theorem c5_invalid_flow_noop (l1 l2 : List Flow) (f : Flow)
    (h : f.vehicle_count ≤ 0 ∨ f.travel_time ≤ 0) :
    aggregateFlows (l1 ++ f :: l2) = aggregateFlows (l1 ++ l2) := by
  have hf : ∀ acc, aggStep acc f = acc := by
    intro acc
    have : ¬(0 < f.vehicle_count ∧ 0 < f.travel_time) := by
      intro hc
      rcases h with h1 | h1
      · omega
      · omega
    simp [aggStep, this]
  unfold aggregateFlows aggTotals
  rw [List.foldl_append, List.foldl_append, List.foldl_cons, hf]

/-- C5 witness: appending a zero-count flow to a one-flow group leaves
the aggregate unchanged. -/
theorem c5_witness :
    ((⟨0, 330, 55⟩ : Flow).vehicle_count ≤ 0 ∨ (⟨0, 330, 55⟩ : Flow).travel_time ≤ 0) ∧
    aggregateFlows [⟨10, 300, 60⟩, ⟨0, 330, 55⟩] = aggregateFlows [⟨10, 300, 60⟩] :=
  ⟨Or.inl (by decide), c5_invalid_flow_noop [⟨10, 300, 60⟩] [] ⟨0, 330, 55⟩ (Or.inl (by decide))⟩

theorem dget_dinsert (d : List (String × StationInfo)) (k k' : String) (v : StationInfo) :
    dget (dinsert d k v) k' = if k = k' then some v else dget d k' := by
  induction d with
  | nil => simp [dinsert, dget]
  | cons e rest ih =>
    obtain ⟨k0, v0⟩ := e
    by_cases h : k0 = k
    · subst h
      simp only [dinsert, if_pos rfl]
      by_cases h2 : k0 = k'
      · subst h2
        simp [dget]
      · simp [dget, h2]
    · simp only [dinsert, if_neg h]
      by_cases h2 : k0 = k'
      · subst h2
        have hk : k ≠ k0 := fun he => h he.symm
        simp [dget, hk]
      · simp [dget, h2, ih]

theorem dget_foldl_const (v : StationInfo) (ks : List String) :
    ∀ (d : List (String × StationInfo)) (k : String),
      dget (ks.foldl (fun acc x => dinsert acc x v) d) k =
        if k ∈ ks then some v else dget d k := by
  induction ks with
  | nil => intro d k; simp
  | cons k0 ks ih =>
    intro d k
    rw [List.foldl_cons, ih]
    rw [dget_dinsert]
    by_cases h1 : k ∈ ks
    · simp [h1]
    · by_cases h2 : k0 = k
      · simp [h1, h2, List.mem_cons]
      · have hk : ¬ k = k0 := fun he => h2 he.symm
        simp [h1, h2, hk, List.mem_cons]

theorem dget_insertRowKeys (d : List (String × StationInfo)) (idx : Nat) (row : EtagRow)
    (k : String) :
    dget (insertRowKeys d idx row) k =
      if k ∈ genKeys row then some (mkInfo idx row) else dget d k := by
  unfold insertRowKeys
  exact dget_foldl_const (mkInfo idx row) (genKeys row) d k

theorem dget_buildGo_notmem (k : String) :
    ∀ (rows : List EtagRow) (idx : Nat) (d : List (String × StationInfo)),
      (∀ r ∈ rows, k ∉ genKeys r) → dget (buildGo idx rows d) k = dget d k := by
  intro rows
  induction rows with
  | nil => intro idx d _; rfl
  | cons r rs ih =>
    intro idx d h
    show dget (buildGo (idx + 1) rs (insertRowKeys d idx r)) k = dget d k
    rw [ih (idx + 1) _ (fun g hg => h g (by simp [hg]))]
    rw [dget_insertRowKeys]
    simp [h r (by simp)]

theorem dget_buildGo_last (k : String) :
    ∀ (rows : List EtagRow) (idx : Nat) (d : List (String × StationInfo)) (i : Nat)
      (hi : i < rows.length),
      k ∈ genKeys (rows.get ⟨i, hi⟩) →
      (∀ j (hj : j < rows.length), i < j → k ∉ genKeys (rows.get ⟨j, hj⟩)) →
      dget (buildGo idx rows d) k = some (mkInfo (idx + i) (rows.get ⟨i, hi⟩)) := by
  intro rows
  induction rows with
  | nil => intro idx d i hi; exact absurd hi (by simp)
  | cons r rs ih =>
    intro idx d i hi hmem hafter
    cases i with
    | zero =>
      show dget (buildGo (idx + 1) rs (insertRowKeys d idx r)) k = some (mkInfo (idx + 0) r)
      rw [dget_buildGo_notmem k rs (idx + 1) _ ?later]
      case later =>
        intro g hg
        obtain ⟨⟨j, hj⟩, hget⟩ := List.get_of_mem hg
        have := hafter (j + 1) (by simpa using Nat.succ_lt_succ hj) (by omega)
        rw [show (r :: rs).get ⟨j + 1, by simpa using Nat.succ_lt_succ hj⟩ = rs.get ⟨j, hj⟩
          from rfl] at this
        rw [hget] at this
        exact this
      rw [dget_insertRowKeys]
      simp only [show (r :: rs).get ⟨0, hi⟩ = r from rfl] at hmem
      simp [hmem]
    | succ i' =>
      show dget (buildGo (idx + 1) rs (insertRowKeys d idx r)) k = _
      have hi' : i' < rs.length := by
        simpa using Nat.lt_of_succ_lt_succ hi
      have hmem' : k ∈ genKeys (rs.get ⟨i', hi'⟩) := hmem
      have hafter' : ∀ j (hj : j < rs.length), i' < j → k ∉ genKeys (rs.get ⟨j, hj⟩) := by
        intro j hj hlt
        have := hafter (j + 1) (by simpa using Nat.succ_lt_succ hj) (by omega)
        rw [show (r :: rs).get ⟨j + 1, by simpa using Nat.succ_lt_succ hj⟩ = rs.get ⟨j, hj⟩
          from rfl] at this
        exact this
      rw [ih (idx + 1) (insertRowKeys d idx r) i' hi' hmem' hafter']
      have harith : idx + 1 + i' = idx + (i' + 1) := by omega
      rw [harith]
      rfl

/-- C2 counterexample: in a two-row table whose rows are `01F-029.3N`
and `03F-029.3N`, the native form `01F-029.3N` of the first row
resolves to station 0 while its compact form `01F0293N` — overwritten
by the second row's road-label variants — resolves to station 1. -/
theorem c2_counterexample :
    Spec2Proof.pyStrip rowA.id_field = "01F-029.3N" ∧
    compactForm rowA = some "01F0293N" ∧
    exactIndex (createEtagDict [rowA, rowB]) "01F-029.3N" = 0 ∧
    exactIndex (createEtagDict [rowA, rowB]) "01F0293N" = 1 := by
  refine ⟨?_, ?_, ?_, ?_⟩ <;> decide

/-- C2 (amended): provided no other row of the reference table
generates the same native or compact key (no cross-row collision),
solving either encoding of a row through the exact index yields that
row's own station index, hence the same canonical key for both. -/
theorem c2_same_key_no_collision (rows : List EtagRow) (i : Nat) (hi : i < rows.length)
    (c : String) (hc : compactForm (rows.get ⟨i, hi⟩) = some c)
    (hdisj : ∀ j (hj : j < rows.length), j ≠ i →
      Spec2Proof.pyStrip ((rows.get ⟨i, hi⟩).id_field) ∉ genKeys (rows.get ⟨j, hj⟩) ∧
      c ∉ genKeys (rows.get ⟨j, hj⟩)) :
    exactIndex (createEtagDict rows) (Spec2Proof.pyStrip ((rows.get ⟨i, hi⟩).id_field)) =
      (i : Int) ∧
    exactIndex (createEtagDict rows) c = (i : Int) := by
  have hnat : Spec2Proof.pyStrip ((rows.get ⟨i, hi⟩).id_field) ∈ genKeys (rows.get ⟨i, hi⟩) := by
    unfold genKeys
    exact List.mem_cons_self _ _
  have hcomp : c ∈ genKeys (rows.get ⟨i, hi⟩) := by
    cases hp : rowParts (rows.get ⟨i, hi⟩) with
    | none =>
      unfold compactForm at hc
      rw [hp] at hc
      simp at hc
    | some p =>
      obtain ⟨pfx, number, dchar⟩ := p
      unfold compactForm at hc
      rw [hp] at hc
      simp only [Option.map_some', Option.some.injEq] at hc
      unfold genKeys
      rw [hp]
      subst hc
      simp
  constructor
  · unfold exactIndex createEtagDict
    rw [dget_buildGo_last _ rows 0 [] i hi hnat
      (fun j hj hlt => (hdisj j hj (by omega)).1)]
    simp [mkInfo]
  · unfold exactIndex createEtagDict
    rw [dget_buildGo_last _ rows 0 [] i hi hcomp
      (fun j hj hlt => (hdisj j hj (by omega)).2)]
    simp [mkInfo]

/-- C2 witness: in the one-row table there is no collision, and both
encodings of `rowA` resolve to station 0. -/
theorem c2_witness :
    compactForm rowA = some "01F0293N" ∧
    exactIndex (createEtagDict [rowA]) (Spec2Proof.pyStrip rowA.id_field) = 0 ∧
    exactIndex (createEtagDict [rowA]) "01F0293N" = 0 := by
  have h := c2_same_key_no_collision [rowA] 0 (by simp) "01F0293N" (by decide)
    (by intro j hj hne; exfalso; apply hne; simp at hj; omega)
  exact ⟨by decide, h.1, h.2⟩

/-- C8 counterexample: the key `01F0293N` is generated by both rows of
the two-row table, and after the build it maps to the second row's
entry — the first row's entry was silently overwritten, and the
construction returns only the dictionary, carrying no collision
flag. -/
theorem c8_counterexample :
    "01F0293N" ∈ genKeys rowA ∧ "01F0293N" ∈ genKeys rowB ∧
    (dget (createEtagDict [rowA, rowB]) "01F0293N").map (fun v => v.index) = some 1 := by
  refine ⟨?_, ?_, ?_⟩ <;> decide

/-- C8 (amended): when the generated keys of two different rows collide
on `k`, `_create_etag_dict` resolves the collision by last write wins —
the final dictionary maps `k` to the entry of the later row (the last
one generating `k`) — with no logging or flagging: the build's only
output is the dictionary itself. -/
theorem c8_last_write_wins (rows : List EtagRow) (i j : Nat) (hi : i < rows.length)
    (hj : j < rows.length) (hij : i < j) (k : String)
    (hki : k ∈ genKeys (rows.get ⟨i, hi⟩)) (hkj : k ∈ genKeys (rows.get ⟨j, hj⟩))
    (hlast : ∀ m (hm : m < rows.length), j < m → k ∉ genKeys (rows.get ⟨m, hm⟩)) :
    dget (createEtagDict rows) k = some (mkInfo j (rows.get ⟨j, hj⟩)) := by
  unfold createEtagDict
  rw [dget_buildGo_last k rows 0 [] j hj hkj hlast]
  simp

/-- C8 witness: the colliding key of the two-row table maps to the
second row's entry. -/
theorem c8_witness :
    "01F0293N" ∈ genKeys rowA ∧
    dget (createEtagDict [rowA, rowB]) "01F0293N" = some (mkInfo 1 rowB) := by
  refine ⟨by decide, c8_last_write_wins [rowA, rowB] 0 1 (by simp) (by simp) (by omega)
    "01F0293N" (by decide) (by decide) ?_⟩
  intro m hm hlt
  exfalso
  simp at hm
  omega

/-- C7 counterexample: against the one-row table, the query
`01F/029.3N` misses the exact index but would resolve through the
alphanumeric-reduction index; yet in a batch where another query
resolves exactly, the code never retries the miss — the batch result
drops it instead of falling back per query. -/
theorem c7_counterexample :
    exactIndex (createEtagDict [rowA]) "01F/029.3N" = -1 ∧
    fuzzyIndex (simplifiedEtagDict (createEtagDict [rowA])) "01F/029.3N" = 0 ∧
    resolveBatch (createEtagDict [rowA]) ["01F0293N", "01F/029.3N"] = [("01F0293N", 0)] := by
  refine ⟨?_, ?_, ?_⟩ <;> decide

/-- C7 (amended): the exact index is applied to the whole batch; the
alphanumeric-reduction fallback is used only when no query of the batch
resolved exactly, and is then applied to the whole batch — when at
least one query resolves exactly, every exact miss is dropped rather
than retried. -/
theorem c7_batch_fallback (d : List (String × StationInfo)) (ids : List String) :
    ((∃ x ∈ ids, exactIndex d x ≠ -1) →
      ∀ y ∈ ids, exactIndex d y = -1 → ∀ n : Int, (y, n) ∉ resolveBatch d ids) ∧
    ((∀ x ∈ ids, exactIndex d x = -1) →
      resolveBatch d ids =
        (ids.map (fun x => (x, fuzzyIndex (simplifiedEtagDict d) x))).filter
          (fun p => p.2 ≠ -1)) := by
  constructor
  · rintro ⟨x, hx, hxv⟩ y hy hyv n hmem
    have hxmem : (x, exactIndex d x) ∈
        (ids.map (fun z => (z, exactIndex d z))).filter (fun p => p.2 ≠ -1) := by
      apply List.mem_filter.mpr
      exact ⟨List.mem_map.mpr ⟨x, hx, rfl⟩, by simpa using hxv⟩
    have hempty : ((ids.map (fun z => (z, exactIndex d z))).filter
        (fun p => p.2 ≠ -1)).isEmpty = false := by
      simp only [List.isEmpty_eq_false]
      exact List.ne_nil_of_mem hxmem
    simp only [resolveBatch, hempty, Bool.false_eq_true, if_false] at hmem
    obtain ⟨hmap, hne⟩ := List.mem_filter.mp hmem
    obtain ⟨z, hz, hzeq⟩ := List.mem_map.mp hmap
    have hzy : z = y := congrArg Prod.fst hzeq
    have hzn : exactIndex d z = n := congrArg Prod.snd hzeq
    rw [hzy] at hzn
    rw [hyv] at hzn
    subst hzn
    simp at hne
  · intro hall
    have hempty : (ids.map (fun z => (z, exactIndex d z))).filter (fun p => p.2 ≠ -1) = [] := by
      rw [List.filter_eq_nil_iff]
      intro p hp
      obtain ⟨x, hx, rfl⟩ := List.mem_map.mp hp
      simp [hall x hx]
    show (if ((ids.map (fun x => (x, exactIndex d x))).filter (fun p => p.2 ≠ -1)).isEmpty then
        (ids.map (fun x => (x, fuzzyIndex (simplifiedEtagDict d) x))).filter (fun p => p.2 ≠ -1)
      else (ids.map (fun x => (x, exactIndex d x))).filter (fun p => p.2 ≠ -1)) = _
    rw [hempty]
    rfl

/-- C7 witness: the amended theorem applied to the concrete one-row
table and two-query batch. -/
theorem c7_witness :
    (∃ x ∈ (["01F0293N", "01F/029.3N"] : List String),
      exactIndex (createEtagDict [rowA]) x ≠ -1) ∧
    exactIndex (createEtagDict [rowA]) "01F/029.3N" = -1 ∧
    ∀ n : Int, ("01F/029.3N", n) ∉
      resolveBatch (createEtagDict [rowA]) ["01F0293N", "01F/029.3N"] :=
  ⟨⟨"01F0293N", by decide, by decide⟩, by decide,
   fun n => (c7_batch_fallback (createEtagDict [rowA]) ["01F0293N", "01F/029.3N"]).1
     ⟨"01F0293N", by decide, by decide⟩ "01F/029.3N" (by decide) (by decide) n⟩

/-- C6: every pair element that parses successfully contributes
exactly two rows — the emitted row count is twice the number of
successfully parsed pairs — and the two rows agree on every field
except the station identifier. -/
theorem c6_two_rows_per_pair :
    (∀ l : List DLPairElem, (processPairs l).length = 2 * parsedPairCount l) ∧
    (∀ (p : DLPairElem) (r1 r2 : DLRow), processPair p = .rows r1 r2 →
      r1.dt = r2.dt ∧ r1.date = r2.date ∧ r1.day = r2.day ∧ r1.hour = r2.hour ∧
      r1.minute = r2.minute ∧ r1.flow = r2.flow ∧ r1.speed = r2.speed ∧
      r1.travel_time = r2.travel_time) := by
  constructor
  · intro l
    induction l with
    | nil => rfl
    | cons p rest ih =>
      cases h : processPair p with
      | abort => simp [processPairs, parsedPairCount, h]
      | skip => simp [processPairs, parsedPairCount, h, ih]
      | rows r1 r2 =>
        simp [processPairs, parsedPairCount, h, ih]
        omega
  · intro p r1 r2 h
    unfold processPair at h
    repeat' split at h
    all_goals try (exfalso; exact PairStep.noConfusion h)
    simp only [PairStep.rows.injEq] at h
    obtain ⟨h1, h2⟩ := h
    subst h1
    subst h2
    exact ⟨rfl, rfl, rfl, rfl, rfl, rfl, rfl, rfl⟩

/-- C6 witness: the fixture pair yields two rows, identical up to the
station identifier. -/
theorem c6_witness :
    processPair pairFix = .rows rowFix { rowFix with etag_id := "01F0509N" } ∧
    (processPairs [pairFix]).length = 2 * parsedPairCount [pairFix] ∧
    rowFix.travel_time = ({ rowFix with etag_id := "01F0509N" } : DLRow).travel_time :=
  ⟨by decide, c6_two_rows_per_pair.1 [pairFix],
   (c6_two_rows_per_pair.2 pairFix rowFix { rowFix with etag_id := "01F0509N" }
     (by decide)).2.2.2.2.2.2.2⟩

end DataLoad

namespace DataSql

/-- C9: the bulk-load operations on an empty batch return 0 rows
written and leave the store untouched — a no-op success, not an
error. -/
theorem c9_empty_batch_noop (dbv : List VDRecord) (dbe : List ETagRecord) :
    bulk_insert_vd_data [] dbv = (0, dbv) ∧ bulk_insert_etag_data [] dbe = (0, dbe) :=
  ⟨rfl, rfl⟩

/-- C3 counterexample: the fixture document's file name encodes the
HHMM token 9999; neither source yields an hour in [0, 23], yet the
parser emits one record carrying hour 99 and minute 99 instead of
skipping the document. -/
theorem c3_counterexample :
    deriveVDTime vdDocFix.filename vdDocFix.update_time = some (99, 99) ∧
    ¬((0 : Int) ≤ 99 ∧ (99 : Int) ≤ 23) ∧
    (parse_vd_xml "2025-04-01" vdDocFix).map (fun r => (r.hour_key, r.minute_key)) =
      [(99, 99)] := by
  refine ⟨by decide, by decide, by decide⟩

/-- C3 (amended): the time bucket is parsed from the file name when it
carries the marker and minimum length — the update time is then ignored
— and otherwise from a non-empty update time of length at least 16;
when the file name does not match and no usable update time exists, the
document yields zero records rather than an error.  The parsed hour and
minute are not range-validated. -/
theorem c3_time_sources (fn : String) (ut ut2 : Option String) :
    (Spec2Proof.containsSub "VDLive_" fn = true → 12 ≤ fn.length →
      deriveVDTime fn ut = deriveVDTime fn ut2) ∧
    (Spec2Proof.containsSub "ETagPairLive_" fn = true → 17 ≤ fn.length →
      deriveETagTime fn ut = deriveETagTime fn ut2) ∧
    (∀ (dk : String) (doc : VDDoc),
      ¬(Spec2Proof.containsSub "VDLive_" doc.filename = true ∧ 12 ≤ doc.filename.length) →
      (∀ s, doc.update_time = some s → s = "" ∨ s.length < 16) →
      parse_vd_xml dk doc = []) ∧
    (∀ (dk : String) (doc : ETagDoc),
      ¬(Spec2Proof.containsSub "ETagPairLive_" doc.filename = true ∧
          17 ≤ doc.filename.length) →
      (∀ s, doc.update_time = some s → s = "" ∨ s.length < 16) →
      parse_etag_xml dk doc = []) := by
  refine ⟨?_, ?_, ?_, ?_⟩
  · intro h1 h2
    have hcond : Spec2Proof.containsSub "VDLive_" fn = true ∧ 12 ≤ fn.length := ⟨h1, h2⟩
    unfold deriveVDTime
    rw [if_pos hcond, if_pos hcond]
  · intro h1 h2
    have hcond : Spec2Proof.containsSub "ETagPairLive_" fn = true ∧ 17 ≤ fn.length := ⟨h1, h2⟩
    unfold deriveETagTime
    rw [if_pos hcond, if_pos hcond]
  · intro dk doc h1 h2
    have ht : deriveVDTime doc.filename doc.update_time = none := by
      unfold deriveVDTime
      rw [if_neg h1]
      split
      next ut3 hu =>
        have hns : ¬(ut3 ≠ "" ∧ 16 ≤ ut3.length) := by
          rcases h2 ut3 hu with he | hl
          · exact fun hcon => hcon.1 he
          · intro hcon
            obtain ⟨h3, h4⟩ := hcon
            omega
        rw [if_neg hns]
      next => rfl
    unfold parse_vd_xml
    rw [ht]
  · intro dk doc h1 h2
    have ht : deriveETagTime doc.filename doc.update_time = none := by
      unfold deriveETagTime
      rw [if_neg h1]
      split
      next ut3 hu =>
        have hns : ¬(ut3 ≠ "" ∧ 16 ≤ ut3.length) := by
          rcases h2 ut3 hu with he | hl
          · exact fun hcon => hcon.1 he
          · intro hcon
            obtain ⟨h3, h4⟩ := hcon
            omega
        rw [if_neg hns]
      next => rfl
    unfold parse_etag_xml
    rw [ht]

/-- C3 witness: the file-name source takes priority over the update
time, and a document with neither source yields zero records. -/
theorem c3_witness :
    Spec2Proof.containsSub "VDLive_" "VDLive_0830.xml" = true ∧
    deriveVDTime "VDLive_0830.xml" (some "1999-01-01 23:45:00") =
      deriveVDTime "VDLive_0830.xml" none ∧
    parse_vd_xml "2025-04-01" docNoTime = [] :=
  ⟨by decide,
   (c3_time_sources "VDLive_0830.xml" (some "1999-01-01 23:45:00") none).1
     (by decide) (by decide),
   (c3_time_sources "" none none).2.2.1 "2025-04-01" docNoTime (by decide)
     (by
       intro s hs
       have h' : some "short" = some s := hs
       have hss : "short" = s := Option.some.inj h'
       right
       rw [← hss]
       decide)⟩

end DataSql

namespace EtagX

/-- C10: an element whose pair id matches the 01F pattern with both
mileages in [447, 1022] is routed to the first output exactly when the
mileage increases, to the second exactly when it decreases, and to
neither when the two mileages are equal; extraction distributes over
the document element-wise, so each such element lands in exactly one
(or neither) output of the whole run. -/
theorem c10_direction_split (e : EPairElem) (pid : String) (skm ekm : Nat) (cs ce : Char)
    (hpid : e.pair_id = some pid)
    (hm : etagPatternMatch pid = some (skm, cs, ekm, ce))
    (h1 : 447 ≤ skm) (h2 : skm ≤ 1022) (h3 : 447 ≤ ekm) (h4 : ekm ≤ 1022) :
    (skm < ekm → extract_etag_data [e] = ([e], [])) ∧
    (ekm < skm → extract_etag_data [e] = ([], [e])) ∧
    (skm = ekm → extract_etag_data [e] = ([], [])) ∧
    (∀ (x : EPairElem) (rest : List EPairElem),
      extract_etag_data (x :: rest) =
        ((extract_etag_data [x]).1 ++ (extract_etag_data rest).1,
         (extract_etag_data [x]).2 ++ (extract_etag_data rest).2)) := by
  have hrange : 447 ≤ skm ∧ skm ≤ 1022 ∧ 447 ≤ ekm ∧ ekm ≤ 1022 := ⟨h1, h2, h3, h4⟩
  refine ⟨?_, ?_, ?_, ?_⟩
  · intro hlt
    simp only [extract_etag_data, hpid, hm]
    rw [if_pos hrange, if_pos hlt]
  · intro hgt
    simp only [extract_etag_data, hpid, hm]
    rw [if_pos hrange, if_neg (by omega : ¬ skm < ekm), if_pos hgt]
  · intro heq
    simp only [extract_etag_data, hpid, hm]
    rw [if_pos hrange, if_neg (by omega : ¬ skm < ekm), if_neg (by omega : ¬ ekm < skm)]
  · intro x rest
    simp only [extract_etag_data]
    rcases hx : x.pair_id with _ | pid2
    · simp [hx]
    · simp only [hx]
      rcases hmx : etagPatternMatch pid2 with _ | ⟨skm2, cs2, ekm2, ce2⟩
      · simp [hmx]
      · simp only [hmx]
        by_cases hr : 447 ≤ skm2 ∧ skm2 ≤ 1022 ∧ 447 ≤ ekm2 ∧ ekm2 ≤ 1022
        · rw [if_pos hr, if_pos hr]
          by_cases hlt : skm2 < ekm2
          · rw [if_pos hlt, if_pos hlt]
            simp
          · rw [if_neg hlt, if_neg hlt]
            by_cases hgt : ekm2 < skm2
            · rw [if_pos hgt, if_pos hgt]
              simp
            · rw [if_neg hgt, if_neg hgt]
              simp
        · rw [if_neg hr, if_neg hr]
          simp

/-- C10 witness: the fixture element (mileage 447 to 509, increasing)
lands in the first output alone. -/
theorem c10_witness :
    e447.pair_id = some "01F0447N-01F0509N" ∧
    extract_etag_data [e447] = ([e447], []) :=
  ⟨rfl,
   (c10_direction_split e447 "01F0447N-01F0509N" 447 509 'N' 'N' rfl (by decide)
     (by decide) (by decide) (by decide) (by decide)).1 (by decide)⟩

end EtagX
